import Mathlib

/-!
Verification of the natural-language specification of the intelligent_search_bar
repository (a natural-language query interface over a financial-transactions
table) against its source. The development shallowly embeds:

* the SQL query registry (`src/app/database/sql_queries.py`): each query builder
  is modelled as the function from its arguments to the `SqlCall` it hands to
  the executor — the exact SQL text assembled by the Python f-string, plus the
  bound-parameter tuple (always absent in the source);
* the executor boundary (`src/app/database/execute_sql.py`): only its call
  interface matters here, i.e. which text and which parameters reach it;
* the tool dispatcher and schema reflector (`src/app/functions/function_caller.py`);
* the orchestrator's account-id injection (`openai_function_call`);
* the relational (PostgreSQL) semantics of the aggregate queries built by
  `get_transactions_by_category` and `get_deposits`, over a modelled
  transactions table, for the claims about aggregate values.

Numeric query parameters (Python `float`/`int`) are modelled by the decimal
text that Python interpolates into the f-string, since only that text enters
the SQL; table amounts are modelled as exact integers (the database column is
an exact numeric type, and any fixed decimal scale embeds into the integers).
-/

/-- A call to the database layer as `execute_sql` receives it: the SQL text and
the optional tuple of bound parameters (`params` in
`src/app/database/execute_sql.py`, default `None`). -/
structure SqlCall where
  text : String
  params : Option (List String)
deriving DecidableEq

/-- Models the call interface of `execute_sql` (src/app/database/execute_sql.py
lines 7-12): `cur.execute(query, params)` receives exactly the SQL text and the
parameter tuple, whose default is `None`. The record of that pair is what the
claims about the executor boundary are stated over. -/
def execute_sql (query : String) (params : Option (List String) := none) : SqlCall :=
  { text := query, params := params }

/-- Query builder of `get_recent_transactions` (src/app/database/sql_queries.py): the SQL text is
built by f-string interpolation of the arguments (numeric parameters are modelled by
the decimal text Python interpolates) and handed to `execute_sql` with no bound
parameters. -/
def get_recent_transactions (account_id : String) : SqlCall :=
  let query :=
    "\n        WITH recent_transactions AS (\n            SELECT \n                amount,\n                transaction_type,\n                category,\n                bank_name,\n                balance_after,\n                currency\n            FROM new_table\n            WHERE "
      ++ "account_id = '"
      ++ account_id
      ++ "'"
      ++ "\n            ORDER BY \"date\" DESC\n            LIMIT 3\n        )\n        SELECT \n            rt.*,\n            (SELECT SUM(amount) FROM recent_transactions) as total_amount_of_3_transactions\n        FROM recent_transactions rt;\n    "
  execute_sql query

/-- Query builder of `get_current_balance` (src/app/database/sql_queries.py): the SQL text is
built by f-string interpolation of the arguments (numeric parameters are modelled by
the decimal text Python interpolates) and handed to `execute_sql` with no bound
parameters. -/
def get_current_balance (account_id : String) : SqlCall :=
  let query :=
    "\n        SELECT \n            balance_after,\n            currency\n        FROM new_table\n        WHERE "
      ++ "account_id = '"
      ++ account_id
      ++ "'"
      ++ "\n        ORDER BY \"date\" DESC\n        LIMIT 1;\n    "
  execute_sql query

/-- Query builder of `get_all_transactions` (src/app/database/sql_queries.py): the SQL text is
built by f-string interpolation of the arguments (numeric parameters are modelled by
the decimal text Python interpolates) and handed to `execute_sql` with no bound
parameters. -/
def get_all_transactions (account_id : String) : SqlCall :=
  let query :=
    "\n        WITH highest_credit AS (\n            SELECT category, SUM(amount) AS credit_sum, currency\n            FROM new_table\n            WHERE transaction_type ILIKE '%credit%'\n              AND "
      ++ "account_id = '"
      ++ account_id
      ++ "'"
      ++ "\n            GROUP BY category, currency\n            ORDER BY credit_sum DESC\n            LIMIT 1\n        ),\n        highest_debit AS (\n            SELECT category, SUM(amount) AS debit_sum, currency\n            FROM new_table\n            WHERE transaction_type ILIKE '%debit%'\n              AND account_id = '"
      ++ account_id
      ++ "'\n            GROUP BY category, currency\n            ORDER BY debit_sum DESC\n            LIMIT 1\n        ),\n        total_amounts AS (\n            SELECT \n                SUM(amount) AS total_amount,\n                currency,\n                SUM(CASE WHEN transaction_type ILIKE '%credit%' THEN amount ELSE 0 END) AS total_credit,\n                SUM(CASE WHEN transaction_type ILIKE '%debit%' THEN amount ELSE 0 END) AS total_debit\n            FROM new_table\n            WHERE account_id = '"
      ++ account_id
      ++ "'\n            GROUP BY currency\n            ORDER BY total_amount DESC\n            LIMIT 1\n        )\n        SELECT \n            total_amount,\n            total_credit,\n            total_debit,\n            (SELECT currency FROM total_amounts) AS currency,\n            (SELECT category FROM highest_credit) AS highest_credit_category,\n            (SELECT credit_sum FROM highest_credit) AS highest_credit_amount,\n            (SELECT currency FROM highest_credit) AS highest_credit_currency,\n            (SELECT category FROM highest_debit) AS highest_debit_category,\n            (SELECT debit_sum FROM highest_debit) AS highest_debit_amount,\n            (SELECT currency FROM highest_debit) AS highest_debit_currency\n        FROM total_amounts;\n    "
  execute_sql query

/-- Query builder of `get_transactions_by_date` (src/app/database/sql_queries.py): the SQL text is
built by f-string interpolation of the arguments (numeric parameters are modelled by
the decimal text Python interpolates) and handed to `execute_sql` with no bound
parameters. -/
def get_transactions_by_date (date_str : String) (account_id : String) : SqlCall :=
  let query :=
    "\n        SELECT \n            amount,\n            currency,\n            category, \n            transaction_type,\n            bank_name\n        FROM new_table\n        WHERE DATE(\"date\") = '"
      ++ date_str
      ++ "'\n          AND "
      ++ "account_id = '"
      ++ account_id
      ++ "'"
      ++ ";\n    "
  execute_sql query

/-- Query builder of `get_transactions_between_dates` (src/app/database/sql_queries.py): the SQL text is
built by f-string interpolation of the arguments (numeric parameters are modelled by
the decimal text Python interpolates) and handed to `execute_sql` with no bound
parameters. -/
def get_transactions_between_dates (start_date : String) (end_date : String) (account_id : String) : SqlCall :=
  let query :=
    "\n        SELECT \n            amount,\n            currency,\n            category,\n            transaction_type,\n            bank_name\n        FROM new_table\n        WHERE \"date\" BETWEEN '"
      ++ start_date
      ++ "' AND '"
      ++ end_date
      ++ " 23:59:59'\n          AND "
      ++ "account_id = '"
      ++ account_id
      ++ "'"
      ++ ";\n    "
  execute_sql query

/-- Query builder of `get_transactions_last_month` (src/app/database/sql_queries.py): the SQL text is
built by f-string interpolation of the arguments (numeric parameters are modelled by
the decimal text Python interpolates) and handed to `execute_sql` with no bound
parameters. -/
def get_transactions_last_month (account_id : String) : SqlCall :=
  let query :=
    "\n        WITH last_month AS (\n            SELECT *\n            FROM new_table\n            WHERE \"date\" >= date_trunc('month', current_date - interval '1 month')\n              AND \"date\" < date_trunc('month', current_date)\n              AND "
      ++ "account_id = '"
      ++ account_id
      ++ "'"
      ++ "\n        ),\n        highest_spent_category AS (\n            SELECT category, SUM(amount) AS total_spent, currency\n            FROM last_month\n            WHERE transaction_type ILIKE '%debit%'\n            GROUP BY category, currency\n            ORDER BY total_spent DESC\n            LIMIT 1\n        ),\n        totals AS (\n            SELECT \n                SUM(amount) as total_amount,\n                currency,\n                SUM(CASE WHEN transaction_type ILIKE '%credit%' THEN amount ELSE 0 END) AS total_received,\n                SUM(CASE WHEN transaction_type ILIKE '%debit%' THEN amount ELSE 0 END) AS total_spent\n            FROM last_month\n            GROUP BY currency\n            ORDER BY total_amount DESC\n            LIMIT 1\n        )\n        SELECT \n            COALESCE(total_amount, 0) AS total_transactions_last_month,\n            (SELECT currency FROM totals) AS total_currency,\n            COALESCE(total_received, 0) AS total_received,\n            (SELECT currency FROM totals) AS received_currency,\n            COALESCE(total_spent, 0) AS total_spent,\n            (SELECT currency FROM totals) AS spent_currency,\n            (SELECT category FROM highest_spent_category) AS highest_spent_category,\n            (SELECT total_spent FROM highest_spent_category) AS highest_spent_amount,\n            (SELECT currency FROM highest_spent_category) AS highest_spent_currency\n        FROM totals;\n    "
  execute_sql query

/-- Query builder of `get_transactions_over` (src/app/database/sql_queries.py): the SQL text is
built by f-string interpolation of the arguments (numeric parameters are modelled by
the decimal text Python interpolates) and handed to `execute_sql` with no bound
parameters. -/
def get_transactions_over (amount : String) (account_id : String) : SqlCall :=
  let query :=
    "\n        SELECT \n            amount,\n            currency,\n            category,\n            transaction_type,\n            bank_name\n        FROM new_table\n        WHERE amount > "
      ++ amount
      ++ "\n          AND "
      ++ "account_id = '"
      ++ account_id
      ++ "'"
      ++ ";\n    "
  execute_sql query

/-- Query builder of `get_transactions_below` (src/app/database/sql_queries.py): the SQL text is
built by f-string interpolation of the arguments (numeric parameters are modelled by
the decimal text Python interpolates) and handed to `execute_sql` with no bound
parameters. -/
def get_transactions_below (amount : String) (account_id : String) : SqlCall :=
  let query :=
    "\n        SELECT \n            amount,\n            currency,\n            category, \n            transaction_type,\n            bank_name\n        FROM new_table\n        WHERE amount < "
      ++ amount
      ++ "\n          AND "
      ++ "account_id = '"
      ++ account_id
      ++ "'"
      ++ ";\n    "
  execute_sql query

/-- Query builder of `get_deposits` (src/app/database/sql_queries.py): the SQL text is
built by f-string interpolation of the arguments (numeric parameters are modelled by
the decimal text Python interpolates) and handed to `execute_sql` with no bound
parameters. -/
def get_deposits (account_id : String) : SqlCall :=
  let query :=
    "\n        WITH deposit_totals AS (\n            SELECT \n                category,\n                SUM(amount) as category_total,\n                currency\n            FROM new_table \n            WHERE transaction_type ILIKE '%credit%'\n                AND "
      ++ "account_id = '"
      ++ account_id
      ++ "'"
      ++ "\n            GROUP BY category, currency\n            ORDER BY category_total DESC\n            LIMIT 1\n        )\n        SELECT \n            COALESCE(SUM(amount), 0) as total_deposits,\n            (SELECT currency FROM deposit_totals) as total_deposits_currency,\n            (SELECT category FROM deposit_totals) as highest_deposit_category,\n            (SELECT category_total FROM deposit_totals) as highest_category_amount,\n            (SELECT currency FROM deposit_totals) as highest_category_currency\n        FROM new_table\n        WHERE transaction_type ILIKE '%credit%'\n            AND account_id = '"
      ++ account_id
      ++ "';\n    "
  execute_sql query

/-- Query builder of `get_withdrawals` (src/app/database/sql_queries.py): the SQL text is
built by f-string interpolation of the arguments (numeric parameters are modelled by
the decimal text Python interpolates) and handed to `execute_sql` with no bound
parameters. -/
def get_withdrawals (account_id : String) : SqlCall :=
  let query :=
    "\n        WITH withdrawal_totals AS (\n            SELECT \n                category,\n                SUM(amount) as category_total,\n                currency\n            FROM new_table \n            WHERE transaction_type ILIKE '%debit%'\n                AND "
      ++ "account_id = '"
      ++ account_id
      ++ "'"
      ++ "\n            GROUP BY category, currency\n            ORDER BY category_total DESC\n            LIMIT 1\n        )\n        SELECT \n            COALESCE(SUM(amount), 0) as total_withdrawals,\n            (SELECT currency FROM withdrawal_totals) as total_withdrawals_currency,\n            (SELECT category FROM withdrawal_totals) as highest_withdrawal_category,\n            (SELECT category_total FROM withdrawal_totals) as highest_category_amount,\n            (SELECT currency FROM withdrawal_totals) as highest_category_currency\n        FROM new_table\n        WHERE transaction_type ILIKE '%debit%'\n            AND account_id = '"
      ++ account_id
      ++ "';\n    "
  execute_sql query

/-- Query builder of `get_transactions_by_category` (src/app/database/sql_queries.py): the SQL text is
built by f-string interpolation of the arguments (numeric parameters are modelled by
the decimal text Python interpolates) and handed to `execute_sql` with no bound
parameters. -/
def get_transactions_by_category (category : String) (account_id : String) : SqlCall :=
  let query :=
    "\n        SELECT \n            SUM(CASE WHEN transaction_type ILIKE '%credit%' THEN amount ELSE 0 END) AS credit_amount,\n            SUM(CASE WHEN transaction_type ILIKE '%debit%' THEN amount ELSE 0 END) AS debit_amount,\n            SUM(amount) AS total_amount,\n            MAX(currency) AS currency\n        FROM new_table\n        WHERE category ILIKE '"
      ++ category
      ++ "'\n          AND "
      ++ "account_id = '"
      ++ account_id
      ++ "'"
      ++ "\n        GROUP BY currency\n        ORDER BY total_amount DESC\n        LIMIT 1;\n    "
  execute_sql query

/-- Query builder of `get_transactions_by_account_number` (src/app/database/sql_queries.py): the SQL text is
built by f-string interpolation of the arguments (numeric parameters are modelled by
the decimal text Python interpolates) and handed to `execute_sql` with no bound
parameters. -/
def get_transactions_by_account_number (account_number : String) (account_id : String) : SqlCall :=
  let query :=
    "\n        SELECT \n            SUM(CASE WHEN transaction_type ILIKE '%credit%' THEN amount ELSE 0 END) AS credit_amount,\n            SUM(CASE WHEN transaction_type ILIKE '%debit%' THEN amount ELSE 0 END) AS debit_amount,\n            SUM(amount) AS total_amount,\n            MAX(currency) AS currency\n        FROM new_table\n        WHERE account_number = '"
      ++ account_number
      ++ "'\n          AND "
      ++ "account_id = '"
      ++ account_id
      ++ "'"
      ++ "\n        GROUP BY currency\n        ORDER BY total_amount DESC\n        LIMIT 1;\n    "
  execute_sql query

/-- Query builder of `get_transactions_by_bank_name` (src/app/database/sql_queries.py): the SQL text is
built by f-string interpolation of the arguments (numeric parameters are modelled by
the decimal text Python interpolates) and handed to `execute_sql` with no bound
parameters. -/
def get_transactions_by_bank_name (bank_name : String) (account_id : String) : SqlCall :=
  let query :=
    "\n        SELECT \n            SUM(CASE WHEN transaction_type ILIKE '%credit%' THEN amount ELSE 0 END) AS credit_amount,\n            SUM(CASE WHEN transaction_type ILIKE '%debit%' THEN amount ELSE 0 END) AS debit_amount,\n            SUM(amount) AS total_amount,\n            MAX(currency) AS currency\n        FROM new_table\n        WHERE bank_name ILIKE '"
      ++ bank_name
      ++ "'\n          AND "
      ++ "account_id = '"
      ++ account_id
      ++ "'"
      ++ "\n        GROUP BY currency\n        ORDER BY total_amount DESC\n        LIMIT 1;\n    "
  execute_sql query

/-- Query builder of `get_transactions_by_account_id` (src/app/database/sql_queries.py): the SQL text is
built by f-string interpolation of the arguments (numeric parameters are modelled by
the decimal text Python interpolates) and handed to `execute_sql` with no bound
parameters. -/
def get_transactions_by_account_id (account_id : String) : SqlCall :=
  let query :=
    "\n        SELECT \n            SUM(CASE WHEN transaction_type ILIKE '%credit%' THEN amount ELSE 0 END) AS credit_amount,\n            SUM(CASE WHEN transaction_type ILIKE '%debit%' THEN amount ELSE 0 END) AS debit_amount,\n            SUM(amount) AS total_amount,\n            MAX(currency) AS currency\n        FROM new_table\n        WHERE "
      ++ "account_id = '"
      ++ account_id
      ++ "'"
      ++ "\n        GROUP BY currency\n        ORDER BY total_amount DESC\n        LIMIT 1;\n    "
  execute_sql query

/-- Query builder of `get_transactions_by_currency` (src/app/database/sql_queries.py): the SQL text is
built by f-string interpolation of the arguments (numeric parameters are modelled by
the decimal text Python interpolates) and handed to `execute_sql` with no bound
parameters. -/
def get_transactions_by_currency (currency : String) (account_id : String) : SqlCall :=
  let query :=
    "\n        SELECT \n            SUM(CASE WHEN transaction_type ILIKE '%credit%' THEN amount ELSE 0 END) AS credit_amount,\n            SUM(CASE WHEN transaction_type ILIKE '%debit%' THEN amount ELSE 0 END) AS debit_amount,\n            SUM(amount) AS total_amount\n        FROM new_table\n        WHERE currency = '"
      ++ currency
      ++ "'\n          AND "
      ++ "account_id = '"
      ++ account_id
      ++ "'"
      ++ ";\n    "
  execute_sql query

/-- Query builder of `get_withdrawals_over_last_days` (src/app/database/sql_queries.py): the SQL text is
built by f-string interpolation of the arguments (numeric parameters are modelled by
the decimal text Python interpolates) and handed to `execute_sql` with no bound
parameters. -/
def get_withdrawals_over_last_days (amount : String) (account_id : String) (days : String := "30") : SqlCall :=
  let query :=
    "\n        WITH filtered_transactions AS (\n            SELECT *\n            FROM new_table \n            WHERE amount > "
      ++ amount
      ++ "\n              AND \"date\" >= current_date - interval '"
      ++ days
      ++ " days'\n              AND "
      ++ "account_id = '"
      ++ account_id
      ++ "'"
      ++ "\n        ),\n        top_category AS (\n            SELECT category, SUM(amount) as category_total, currency\n            FROM filtered_transactions\n            WHERE transaction_type ILIKE '%debit%'\n            GROUP BY category, currency\n            ORDER BY category_total DESC\n            LIMIT 1\n        ),\n        totals AS (\n            SELECT \n                SUM(amount) as total_sum,\n                SUM(CASE WHEN transaction_type ILIKE '%debit%' THEN amount ELSE 0 END) as total_spent,\n                SUM(CASE WHEN transaction_type ILIKE '%credit%' THEN amount ELSE 0 END) as total_received,\n                currency\n            FROM filtered_transactions\n            GROUP BY currency\n            ORDER BY total_sum DESC\n            LIMIT 1\n        )\n        SELECT \n            COALESCE(total_sum, 0) as total_sum,\n            (SELECT currency FROM totals) as total_currency,\n            COALESCE(total_spent, 0) as total_spent,\n            (SELECT currency FROM totals) as spent_currency,\n            COALESCE(total_received, 0) as total_received,\n            (SELECT currency FROM totals) as received_currency,\n            (SELECT category FROM top_category) as highest_spend_category,\n            (SELECT category_total FROM top_category) as highest_category_amount,\n            (SELECT currency FROM top_category) as highest_category_currency\n        FROM totals;\n    "
  execute_sql query

/-- Query builder of `get_transactions_by_bank_and_category` (src/app/database/sql_queries.py): the SQL text is
built by f-string interpolation of the arguments (numeric parameters are modelled by
the decimal text Python interpolates) and handed to `execute_sql` with no bound
parameters. -/
def get_transactions_by_bank_and_category (bank_name : String) (category : String) (account_id : String) : SqlCall :=
  let query :=
    "\n        WITH totals AS (\n            SELECT \n                SUM(amount) as total_sum,\n                SUM(CASE WHEN transaction_type ILIKE '%debit%' THEN amount ELSE 0 END) as total_spent,\n                SUM(CASE WHEN transaction_type ILIKE '%credit%' THEN amount ELSE 0 END) as total_received,\n                currency\n            FROM new_table\n            WHERE bank_name ILIKE '"
      ++ bank_name
      ++ "'\n              AND category ILIKE '"
      ++ category
      ++ "'\n              AND "
      ++ "account_id = '"
      ++ account_id
      ++ "'"
      ++ "\n            GROUP BY currency\n            ORDER BY total_sum DESC\n            LIMIT 1\n        )\n        SELECT \n            COALESCE(total_sum, 0) as total_sum,\n            currency as total_currency,\n            COALESCE(total_spent, 0) as total_spent,\n            currency as spent_currency,\n            COALESCE(total_received, 0) as total_received,\n            currency as received_currency\n        FROM totals;\n    "
  execute_sql query

/-- Query builder of `get_transactions_between_amounts_and_category` (src/app/database/sql_queries.py): the SQL text is
built by f-string interpolation of the arguments (numeric parameters are modelled by
the decimal text Python interpolates) and handed to `execute_sql` with no bound
parameters. -/
def get_transactions_between_amounts_and_category (min_amount : String) (max_amount : String) (category : String) (account_id : String) : SqlCall :=
  let query :=
    "\n        WITH filtered_transactions AS (\n            SELECT *\n            FROM new_table\n            WHERE amount BETWEEN "
      ++ min_amount
      ++ " AND "
      ++ max_amount
      ++ "\n              AND category ILIKE '"
      ++ category
      ++ "'\n              AND "
      ++ "account_id = '"
      ++ account_id
      ++ "'"
      ++ "\n        ),\n        top_category AS (\n            SELECT category, SUM(amount) as category_total, currency\n            FROM filtered_transactions \n            WHERE transaction_type ILIKE '%debit%'\n            GROUP BY category, currency\n            ORDER BY category_total DESC\n            LIMIT 1\n        ),\n        totals AS (\n            SELECT \n                SUM(amount) as total_sum,\n                SUM(CASE WHEN transaction_type ILIKE '%debit%' THEN amount ELSE 0 END) as total_spent,\n                SUM(CASE WHEN transaction_type ILIKE '%credit%' THEN amount ELSE 0 END) as total_received,\n                currency\n            FROM filtered_transactions\n            GROUP BY currency\n            ORDER BY total_sum DESC\n            LIMIT 1\n        )\n        SELECT \n            COALESCE(total_sum, 0) as total_sum,\n            (SELECT currency FROM totals) as total_currency,\n            COALESCE(total_spent, 0) as total_spent,\n            (SELECT currency FROM totals) as spent_currency,\n            COALESCE(total_received, 0) as total_received,\n            (SELECT currency FROM totals) as received_currency,\n            (SELECT category FROM top_category) as highest_spend_category,\n            (SELECT category_total FROM top_category) as highest_category_amount,\n            (SELECT currency FROM top_category) as highest_category_currency\n        FROM totals;\n    "
  execute_sql query

/-- Query builder of `get_transactions_updated_since` (src/app/database/sql_queries.py): the SQL text is
built by f-string interpolation of the arguments (numeric parameters are modelled by
the decimal text Python interpolates) and handed to `execute_sql` with no bound
parameters. -/
def get_transactions_updated_since (specific_date : String) (account_id : String) : SqlCall :=
  let query :=
    "\n        WITH filtered_transactions AS (\n            SELECT *\n            FROM new_table\n            WHERE updated_at >= '"
      ++ specific_date
      ++ "'\n              AND "
      ++ "account_id = '"
      ++ account_id
      ++ "'"
      ++ "\n        ),\n        highest_spend_category AS (\n            SELECT category, SUM(amount) as category_total\n            FROM filtered_transactions\n            WHERE transaction_type ILIKE '%debit%'\n            GROUP BY category\n            ORDER BY category_total DESC\n            LIMIT 1\n        )\n        SELECT \n            COALESCE(SUM(amount), 0) as total_sum,\n            COALESCE(SUM(CASE WHEN transaction_type ILIKE '%debit%' THEN amount ELSE 0 END), 0) as total_spent,\n            COALESCE(SUM(CASE WHEN transaction_type ILIKE '%credit%' THEN amount ELSE 0 END), 0) as total_received,\n            (SELECT category FROM highest_spend_category) as highest_spend_category,\n            (SELECT category_total FROM highest_spend_category) as highest_spend_amount\n        FROM filtered_transactions;\n    "
  execute_sql query

/-- Query builder of `get_transactions_created_last_week` (src/app/database/sql_queries.py): the SQL text is
built by f-string interpolation of the arguments (numeric parameters are modelled by
the decimal text Python interpolates) and handed to `execute_sql` with no bound
parameters. -/
def get_transactions_created_last_week (account_id : String) : SqlCall :=
  let query :=
    "\n        WITH last_week_transactions AS (\n            SELECT *\n            FROM new_table\n            WHERE created_at >= current_date - interval '7 days'\n              AND "
      ++ "account_id = '"
      ++ account_id
      ++ "'"
      ++ "\n        ),\n        top_spending_category AS (\n            SELECT \n                category,\n                SUM(amount) as spent_amount,\n                currency\n            FROM last_week_transactions\n            WHERE transaction_type ILIKE '%debit%'\n            GROUP BY category, currency\n            ORDER BY spent_amount DESC\n            LIMIT 1\n        ),\n        totals AS (\n            SELECT \n                SUM(amount) as total_sum,\n                SUM(CASE WHEN transaction_type ILIKE '%debit%' THEN amount ELSE 0 END) as total_spent,\n                SUM(CASE WHEN transaction_type ILIKE '%credit%' THEN amount ELSE 0 END) as total_received,\n                currency\n            FROM last_week_transactions\n            GROUP BY currency\n            ORDER BY total_sum DESC\n            LIMIT 1\n        )\n        SELECT \n            COALESCE(total_sum, 0) as total_sum,\n            (SELECT currency FROM totals) as total_currency,\n            COALESCE(total_spent, 0) as total_spent,\n            (SELECT currency FROM totals) as spent_currency,\n            COALESCE(total_received, 0) as total_received,\n            (SELECT currency FROM totals) as received_currency,\n            (SELECT category FROM top_spending_category) as highest_spend_category,\n            (SELECT spent_amount FROM top_spending_category) as highest_spend_amount,\n            (SELECT currency FROM top_spending_category) as highest_spend_currency\n        FROM totals;\n    "
  execute_sql query

/-- Query builder of `get_transactions_by_keyword` (src/app/database/sql_queries.py): the SQL text is
built by f-string interpolation of the arguments (numeric parameters are modelled by
the decimal text Python interpolates) and handed to `execute_sql` with no bound
parameters. -/
def get_transactions_by_keyword (keyword : String) (account_id : String) : SqlCall :=
  let query :=
    "\n        SELECT\n            SUM(CASE WHEN transaction_type ILIKE '%credit%' THEN amount ELSE 0 END) AS credit_amount_"
      ++ keyword
      ++ ",\n            SUM(CASE WHEN transaction_type ILIKE '%debit%' THEN amount ELSE 0 END) AS debit_amount_"
      ++ keyword
      ++ ", \n            SUM(amount) AS total_amount_"
      ++ keyword
      ++ ",\n            MAX(currency) as currency\n        FROM new_table\n        WHERE "
      ++ "account_id = '"
      ++ account_id
      ++ "'"
      ++ "\n          AND (\n              bank_name ILIKE '%"
      ++ keyword
      ++ "%' OR\n              category ILIKE '%"
      ++ keyword
      ++ "%' OR\n              transaction_type ILIKE '%"
      ++ keyword
      ++ "%'\n          )\n        GROUP BY currency\n        ORDER BY total_amount_"
      ++ keyword
      ++ " DESC\n        LIMIT 1;\n    "
  execute_sql query

/-- The account filter condition `account_id = '<id>'` that scopes a query to
one account, as the f-strings of `sql_queries.py` spell it. -/
def accountFilter (account_id : String) : String :=
  "account_id = '" ++ account_id ++ "'"

/-- `ScopedTo account_id sql`: the SQL text `sql` contains the account filter
condition equating the `account_id` column to the supplied identifier. -/
def ScopedTo (account_id sql : String) : Prop :=
  ∃ pre post, sql = pre ++ accountFilter account_id ++ post

theorem ScopedTo.here (account_id post : String) :
    ScopedTo account_id ("account_id = '" ++ (account_id ++ ("'" ++ post))) :=
  ⟨"", post, by simp [accountFilter, String.append_assoc]⟩

theorem ScopedTo.cons (t : String) {account_id s : String} (h : ScopedTo account_id s) :
    ScopedTo account_id (t ++ s) := by
  obtain ⟨pre, post, rfl⟩ := h
  exact ⟨t ++ pre, post, by simp [String.append_assoc]⟩

theorem scoped_get_recent_transactions (account_id : String) :
    ScopedTo account_id (get_recent_transactions account_id).text := by
  simp only [get_recent_transactions, execute_sql, String.append_assoc]
  repeat first
    | exact ScopedTo.here account_id _
    | apply ScopedTo.cons

theorem scoped_get_current_balance (account_id : String) :
    ScopedTo account_id (get_current_balance account_id).text := by
  simp only [get_current_balance, execute_sql, String.append_assoc]
  repeat first
    | exact ScopedTo.here account_id _
    | apply ScopedTo.cons

theorem scoped_get_all_transactions (account_id : String) :
    ScopedTo account_id (get_all_transactions account_id).text := by
  simp only [get_all_transactions, execute_sql, String.append_assoc]
  repeat first
    | exact ScopedTo.here account_id _
    | apply ScopedTo.cons

theorem scoped_get_transactions_by_date (date_str : String) (account_id : String) :
    ScopedTo account_id (get_transactions_by_date date_str account_id).text := by
  simp only [get_transactions_by_date, execute_sql, String.append_assoc]
  repeat first
    | exact ScopedTo.here account_id _
    | apply ScopedTo.cons

theorem scoped_get_transactions_between_dates (start_date : String) (end_date : String) (account_id : String) :
    ScopedTo account_id (get_transactions_between_dates start_date end_date account_id).text := by
  simp only [get_transactions_between_dates, execute_sql, String.append_assoc]
  repeat first
    | exact ScopedTo.here account_id _
    | apply ScopedTo.cons

theorem scoped_get_transactions_last_month (account_id : String) :
    ScopedTo account_id (get_transactions_last_month account_id).text := by
  simp only [get_transactions_last_month, execute_sql, String.append_assoc]
  repeat first
    | exact ScopedTo.here account_id _
    | apply ScopedTo.cons

theorem scoped_get_transactions_over (amount : String) (account_id : String) :
    ScopedTo account_id (get_transactions_over amount account_id).text := by
  simp only [get_transactions_over, execute_sql, String.append_assoc]
  repeat first
    | exact ScopedTo.here account_id _
    | apply ScopedTo.cons

theorem scoped_get_transactions_below (amount : String) (account_id : String) :
    ScopedTo account_id (get_transactions_below amount account_id).text := by
  simp only [get_transactions_below, execute_sql, String.append_assoc]
  repeat first
    | exact ScopedTo.here account_id _
    | apply ScopedTo.cons

theorem scoped_get_deposits (account_id : String) :
    ScopedTo account_id (get_deposits account_id).text := by
  simp only [get_deposits, execute_sql, String.append_assoc]
  repeat first
    | exact ScopedTo.here account_id _
    | apply ScopedTo.cons

theorem scoped_get_withdrawals (account_id : String) :
    ScopedTo account_id (get_withdrawals account_id).text := by
  simp only [get_withdrawals, execute_sql, String.append_assoc]
  repeat first
    | exact ScopedTo.here account_id _
    | apply ScopedTo.cons

theorem scoped_get_transactions_by_category (category : String) (account_id : String) :
    ScopedTo account_id (get_transactions_by_category category account_id).text := by
  simp only [get_transactions_by_category, execute_sql, String.append_assoc]
  repeat first
    | exact ScopedTo.here account_id _
    | apply ScopedTo.cons

theorem scoped_get_transactions_by_account_number (account_number : String) (account_id : String) :
    ScopedTo account_id (get_transactions_by_account_number account_number account_id).text := by
  simp only [get_transactions_by_account_number, execute_sql, String.append_assoc]
  repeat first
    | exact ScopedTo.here account_id _
    | apply ScopedTo.cons

theorem scoped_get_transactions_by_bank_name (bank_name : String) (account_id : String) :
    ScopedTo account_id (get_transactions_by_bank_name bank_name account_id).text := by
  simp only [get_transactions_by_bank_name, execute_sql, String.append_assoc]
  repeat first
    | exact ScopedTo.here account_id _
    | apply ScopedTo.cons

theorem scoped_get_transactions_by_account_id (account_id : String) :
    ScopedTo account_id (get_transactions_by_account_id account_id).text := by
  simp only [get_transactions_by_account_id, execute_sql, String.append_assoc]
  repeat first
    | exact ScopedTo.here account_id _
    | apply ScopedTo.cons

theorem scoped_get_transactions_by_currency (currency : String) (account_id : String) :
    ScopedTo account_id (get_transactions_by_currency currency account_id).text := by
  simp only [get_transactions_by_currency, execute_sql, String.append_assoc]
  repeat first
    | exact ScopedTo.here account_id _
    | apply ScopedTo.cons

theorem scoped_get_withdrawals_over_last_days (amount : String) (account_id : String) (days : String) :
    ScopedTo account_id (get_withdrawals_over_last_days amount account_id days).text := by
  simp only [get_withdrawals_over_last_days, execute_sql, String.append_assoc]
  repeat first
    | exact ScopedTo.here account_id _
    | apply ScopedTo.cons

theorem scoped_get_transactions_by_bank_and_category (bank_name : String) (category : String) (account_id : String) :
    ScopedTo account_id (get_transactions_by_bank_and_category bank_name category account_id).text := by
  simp only [get_transactions_by_bank_and_category, execute_sql, String.append_assoc]
  repeat first
    | exact ScopedTo.here account_id _
    | apply ScopedTo.cons

theorem scoped_get_transactions_between_amounts_and_category (min_amount : String) (max_amount : String) (category : String) (account_id : String) :
    ScopedTo account_id (get_transactions_between_amounts_and_category min_amount max_amount category account_id).text := by
  simp only [get_transactions_between_amounts_and_category, execute_sql, String.append_assoc]
  repeat first
    | exact ScopedTo.here account_id _
    | apply ScopedTo.cons

theorem scoped_get_transactions_updated_since (specific_date : String) (account_id : String) :
    ScopedTo account_id (get_transactions_updated_since specific_date account_id).text := by
  simp only [get_transactions_updated_since, execute_sql, String.append_assoc]
  repeat first
    | exact ScopedTo.here account_id _
    | apply ScopedTo.cons

theorem scoped_get_transactions_created_last_week (account_id : String) :
    ScopedTo account_id (get_transactions_created_last_week account_id).text := by
  simp only [get_transactions_created_last_week, execute_sql, String.append_assoc]
  repeat first
    | exact ScopedTo.here account_id _
    | apply ScopedTo.cons

theorem scoped_get_transactions_by_keyword (keyword : String) (account_id : String) :
    ScopedTo account_id (get_transactions_by_keyword keyword account_id).text := by
  simp only [get_transactions_by_keyword, execute_sql, String.append_assoc]
  repeat first
    | exact ScopedTo.here account_id _
    | apply ScopedTo.cons

/-- C1: for every query function defined in the SQL query registry module
(src/app/database/sql_queries.py) and for every assignment of its string/numeric
arguments, the SQL text it builds and passes to the executor contains the
account filter condition equating the table's `account_id` column to the
supplied account identifier. -/
theorem every_query_carries_account_filter :
    (∀ account_id, ScopedTo account_id (get_recent_transactions account_id).text) ∧
    (∀ account_id, ScopedTo account_id (get_current_balance account_id).text) ∧
    (∀ account_id, ScopedTo account_id (get_all_transactions account_id).text) ∧
    (∀ date_str account_id,
      ScopedTo account_id (get_transactions_by_date date_str account_id).text) ∧
    (∀ start_date end_date account_id,
      ScopedTo account_id (get_transactions_between_dates start_date end_date account_id).text) ∧
    (∀ account_id, ScopedTo account_id (get_transactions_last_month account_id).text) ∧
    (∀ amount account_id, ScopedTo account_id (get_transactions_over amount account_id).text) ∧
    (∀ amount account_id, ScopedTo account_id (get_transactions_below amount account_id).text) ∧
    (∀ account_id, ScopedTo account_id (get_deposits account_id).text) ∧
    (∀ account_id, ScopedTo account_id (get_withdrawals account_id).text) ∧
    (∀ category account_id,
      ScopedTo account_id (get_transactions_by_category category account_id).text) ∧
    (∀ account_number account_id,
      ScopedTo account_id (get_transactions_by_account_number account_number account_id).text) ∧
    (∀ bank_name account_id,
      ScopedTo account_id (get_transactions_by_bank_name bank_name account_id).text) ∧
    (∀ account_id, ScopedTo account_id (get_transactions_by_account_id account_id).text) ∧
    (∀ currency account_id,
      ScopedTo account_id (get_transactions_by_currency currency account_id).text) ∧
    (∀ amount account_id days,
      ScopedTo account_id (get_withdrawals_over_last_days amount account_id days).text) ∧
    (∀ bank_name category account_id,
      ScopedTo account_id (get_transactions_by_bank_and_category bank_name category account_id).text) ∧
    (∀ min_amount max_amount category account_id,
      ScopedTo account_id
        (get_transactions_between_amounts_and_category min_amount max_amount category account_id).text) ∧
    (∀ specific_date account_id,
      ScopedTo account_id (get_transactions_updated_since specific_date account_id).text) ∧
    (∀ account_id, ScopedTo account_id (get_transactions_created_last_week account_id).text) ∧
    (∀ keyword account_id,
      ScopedTo account_id (get_transactions_by_keyword keyword account_id).text) :=
  ⟨scoped_get_recent_transactions, scoped_get_current_balance, scoped_get_all_transactions,
   scoped_get_transactions_by_date, scoped_get_transactions_between_dates,
   scoped_get_transactions_last_month, scoped_get_transactions_over,
   scoped_get_transactions_below, scoped_get_deposits, scoped_get_withdrawals,
   scoped_get_transactions_by_category, scoped_get_transactions_by_account_number,
   scoped_get_transactions_by_bank_name, scoped_get_transactions_by_account_id,
   scoped_get_transactions_by_currency, scoped_get_withdrawals_over_last_days,
   scoped_get_transactions_by_bank_and_category,
   scoped_get_transactions_between_amounts_and_category,
   scoped_get_transactions_updated_since, scoped_get_transactions_created_last_week,
   scoped_get_transactions_by_keyword⟩

set_option maxRecDepth 100000 in
/-- C4 counterexample: the SQL text handed to the executor is NOT the same for
two different argument values of a parameter — `get_transactions_by_date`
interpolates the date into the text, so two dates yield two different texts. -/
theorem sql_text_differs_between_argument_values :
    (get_transactions_by_date "2024-01-01" "acct").text ≠
      (get_transactions_by_date "2024-01-02" "acct").text := by
  decide

set_option maxRecDepth 100000 in
/-- C4 (amended): every registry query function builds its SQL by interpolating
the argument values into the query string and passes NO bound parameters to the
executor (`execute_sql` is always called with its `params` argument left at
`None`); consequently the SQL text varies with the argument values, as the date
example shows. -/
theorem queries_interpolate_and_bind_no_parameters :
    (∀ account_id, (get_recent_transactions account_id).params = none) ∧
    (∀ account_id, (get_current_balance account_id).params = none) ∧
    (∀ account_id, (get_all_transactions account_id).params = none) ∧
    (∀ date_str account_id, (get_transactions_by_date date_str account_id).params = none) ∧
    (∀ s e account_id, (get_transactions_between_dates s e account_id).params = none) ∧
    (∀ account_id, (get_transactions_last_month account_id).params = none) ∧
    (∀ amount account_id, (get_transactions_over amount account_id).params = none) ∧
    (∀ amount account_id, (get_transactions_below amount account_id).params = none) ∧
    (∀ account_id, (get_deposits account_id).params = none) ∧
    (∀ account_id, (get_withdrawals account_id).params = none) ∧
    (∀ c account_id, (get_transactions_by_category c account_id).params = none) ∧
    (∀ n account_id, (get_transactions_by_account_number n account_id).params = none) ∧
    (∀ b account_id, (get_transactions_by_bank_name b account_id).params = none) ∧
    (∀ account_id, (get_transactions_by_account_id account_id).params = none) ∧
    (∀ c account_id, (get_transactions_by_currency c account_id).params = none) ∧
    (∀ a account_id d, (get_withdrawals_over_last_days a account_id d).params = none) ∧
    (∀ b c account_id, (get_transactions_by_bank_and_category b c account_id).params = none) ∧
    (∀ lo hi c account_id,
      (get_transactions_between_amounts_and_category lo hi c account_id).params = none) ∧
    (∀ d account_id, (get_transactions_updated_since d account_id).params = none) ∧
    (∀ account_id, (get_transactions_created_last_week account_id).params = none) ∧
    (∀ k account_id, (get_transactions_by_keyword k account_id).params = none) ∧
    (get_transactions_by_date "2024-01-01" "acct").text ≠
      (get_transactions_by_date "2024-01-02" "acct").text := by
  refine ⟨fun _ => rfl, fun _ => rfl, fun _ => rfl, fun _ _ => rfl, fun _ _ _ => rfl,
    fun _ => rfl, fun _ _ => rfl, fun _ _ => rfl, fun _ => rfl, fun _ => rfl,
    fun _ _ => rfl, fun _ _ => rfl, fun _ _ => rfl, fun _ => rfl, fun _ _ => rfl,
    fun _ _ _ => rfl, fun _ _ _ => rfl, fun _ _ _ _ => rfl, fun _ _ => rfl,
    fun _ => rfl, fun _ _ => rfl, ?_⟩
  decide

/-- A JSON value as `json.loads` produces one for a tool-call argument
(src/app/functions/function_caller.py line 203). Only the scalar shapes matter
for the claims here. -/
inductive JsonVal where
  | str (s : String)
  | num (n : Int)
  | boolean (b : Bool)
  | null
deriving DecidableEq

/-- A Python dict of tool-call arguments: keys in insertion order, keys unique
as `json.loads` yields them. -/
abbrev ArgDict := List (String × JsonVal)

/-- Python dict lookup `d[k]` / `d.get(k)`. -/
def dictLookup (k : String) : ArgDict → Option JsonVal
  | [] => none
  | (k', v) :: rest => if k' = k then some v else dictLookup k rest

/-- Python dict assignment `d[k] = v`: replaces the value at an existing key in
place, or appends the new key at the end. -/
def dictSet (k : String) (v : JsonVal) : ArgDict → ArgDict
  | [] => [(k, v)]
  | (k', v') :: rest => if k' = k then (k, v) :: rest else (k', v') :: dictSet k v rest

/-- Models `arguments["account_id"] = account_id`
(src/app/functions/function_caller.py line 206): the orchestrator overwrites
whatever the model supplied for `account_id` with the caller's account
identifier before dispatching. -/
def injectAccountId (account_id : String) (arguments : ArgDict) : ArgDict :=
  dictSet "account_id" (.str account_id) arguments

theorem dictLookup_dictSet (k k' : String) (v : JsonVal) (d : ArgDict) :
    dictLookup k (dictSet k' v d) = if k' = k then some v else dictLookup k d := by
  induction d with
  | nil => simp [dictSet, dictLookup]
  | cons hd tl ih =>
    obtain ⟨k₀, v₀⟩ := hd
    by_cases h₀ : k₀ = k'
    · subst h₀
      by_cases hk : k₀ = k <;> simp [dictSet, dictLookup, hk]
    · by_cases hk : k₀ = k
      · subst hk
        have hne : k' ≠ k₀ := fun h => h₀ h.symm
        simp [dictSet, dictLookup, h₀, hne]
      · simp [dictSet, dictLookup, h₀, hk, ih]

theorem dictSet_dictSet (k : String) (v w : JsonVal) (d : ArgDict) :
    dictSet k v (dictSet k w d) = dictSet k v d := by
  induction d with
  | nil => simp [dictSet]
  | cons hd tl ih =>
    obtain ⟨k₀, v₀⟩ := hd
    by_cases h₀ : k₀ = k <;> simp [dictSet, h₀, ih]

/-- C2: the orchestrator sets the `account_id` entry of the argument mapping to
the caller's account identifier before dispatching, so (first conjunct) the
dispatched `account_id` entry is always the caller's, and (second conjunct) two
model-supplied argument payloads that differ only in their `account_id` value —
one being the other with `account_id` reassigned — inject to the very same
dispatched argument mapping: the model-supplied `account_id` never influences
the executed call. -/
theorem injected_account_id_overrides_model (account_id : String) (w : JsonVal)
    (arguments : ArgDict) :
    dictLookup "account_id" (injectAccountId account_id arguments) =
      some (.str account_id) ∧
    injectAccountId account_id (dictSet "account_id" w arguments) =
      injectAccountId account_id arguments := by
  constructor
  · simp [injectAccountId, dictLookup_dictSet]
  · simp [injectAccountId, dictSet_dictSet]

/-- The keys of `FUNCTION_MAP` (src/app/functions/function_caller.py lines
15-41), in source order: the 25 tool names the dispatcher accepts. -/
def functionMapNames : List String :=
  [ "get_last_5_transactions",
    "get_current_balance",
    "get_all_transactions",
    "get_transactions_by_date",
    "get_transactions_between_dates",
    "get_transactions_last_month",
    "get_transactions_over",
    "get_transactions_below",
    "get_transactions_by_exact_amount",
    "get_deposits",
    "get_withdrawals",
    "get_transactions_by_category",
    "get_transactions_by_narration_keyword",
    "get_transactions_by_account_number",
    "get_transactions_by_bank_name",
    "get_transactions_by_account_id",
    "get_transactions_by_mono_connection_id",
    "get_transactions_by_currency",
    "get_transaction_by_transaction_id",
    "get_last_transaction_narration_and_amount",
    "get_withdrawals_over_last_days",
    "get_transactions_by_bank_and_category",
    "get_transactions_between_amounts_and_category",
    "get_transactions_updated_since",
    "get_transactions_created_last_week" ]

/-- The names of the query functions actually defined in the SQL query registry
module (src/app/database/sql_queries.py), in source order — the module defines
exactly these 21 functions. -/
def sqlQueriesDefinedNames : List String :=
  [ "get_recent_transactions",
    "get_current_balance",
    "get_all_transactions",
    "get_transactions_by_date",
    "get_transactions_between_dates",
    "get_transactions_last_month",
    "get_transactions_over",
    "get_transactions_below",
    "get_deposits",
    "get_withdrawals",
    "get_transactions_by_category",
    "get_transactions_by_account_number",
    "get_transactions_by_bank_name",
    "get_transactions_by_account_id",
    "get_transactions_by_currency",
    "get_withdrawals_over_last_days",
    "get_transactions_by_bank_and_category",
    "get_transactions_between_amounts_and_category",
    "get_transactions_updated_since",
    "get_transactions_created_last_week",
    "get_transactions_by_keyword" ]

set_option maxRecDepth 100000 in
/-- C3: the dispatcher's function map is NOT a total mapping from registered
names to defined query builders. Of its 25 entries, six name attributes that
`sql_queries.py` does not define (`sql_queries.get_last_5_transactions` etc.
raise `AttributeError` the moment the module is imported); only 19 entries
refer to functions the registry module defines. -/
theorem function_map_references_undefined_functions :
    functionMapNames.length = 25 ∧
    "get_last_5_transactions" ∈ functionMapNames ∧
    "get_last_5_transactions" ∉ sqlQueriesDefinedNames ∧
    "get_transactions_by_exact_amount" ∈ functionMapNames ∧
    "get_transactions_by_exact_amount" ∉ sqlQueriesDefinedNames ∧
    "get_transactions_by_narration_keyword" ∈ functionMapNames ∧
    "get_transactions_by_narration_keyword" ∉ sqlQueriesDefinedNames ∧
    "get_transactions_by_mono_connection_id" ∈ functionMapNames ∧
    "get_transactions_by_mono_connection_id" ∉ sqlQueriesDefinedNames ∧
    "get_transaction_by_transaction_id" ∈ functionMapNames ∧
    "get_transaction_by_transaction_id" ∉ sqlQueriesDefinedNames ∧
    "get_last_transaction_narration_and_amount" ∈ functionMapNames ∧
    "get_last_transaction_narration_and_amount" ∉ sqlQueriesDefinedNames ∧
    (functionMapNames.filter (fun n => n ∈ sqlQueriesDefinedNames)).length = 19 ∧
    ¬ (∀ n ∈ functionMapNames, n ∈ sqlQueriesDefinedNames) := by
  decide

/-- A Python exception as the dispatcher sees one: either the `ValueError` it
raises itself, or any `Exception` coming out of the invoked call. -/
inductive PyExc where
  | valueError (msg : String)
  | exception (msg : String)
deriving DecidableEq

/-- `str(e)`: the exception's message. -/
def PyExc.message : PyExc → String
  | .valueError msg => msg
  | .exception msg => msg

/-- A Python value a dispatched call can produce: a query result (a list of
rows), a dict (such as the `{"error": ...}` wrapper), or a string. -/
inductive PyVal where
  | rows (rs : List (List (String × String)))
  | dict (entries : List (String × PyVal))
  | str (s : String)

/-- The `{"error": str(e)}` dict the dispatcher builds
(src/app/functions/function_caller.py line 121). -/
def errorResult (msg : String) : PyVal :=
  .dict [("error", .str msg)]

/-- What one dispatch did: its outcome (a returned value, or a raised
exception) and which registry functions were invoked along the way. -/
structure DispatchTrace where
  outcome : Except PyExc PyVal
  invoked : List String

/-- Models `call_function_by_name` (src/app/functions/function_caller.py lines
106-123). `impl name arguments` stands for the Python call
`func(**arguments)` on the function registered under `name` — `.error e` covers
any exception the call raises, including argument-binding failures
(`TypeError` for missing/extra/misnamed keys), since the `try` block wraps the
invocation itself. An unregistered name raises `ValueError` before anything is
invoked; an exception from the invocation is swallowed into `{"error":
str(e)}`. -/
def call_function_by_name (impl : String → ArgDict → Except PyExc PyVal)
    (function_name : String) (arguments : ArgDict) : DispatchTrace :=
  if function_name ∈ functionMapNames then
    match impl function_name arguments with
    | .ok result => { outcome := .ok result, invoked := [function_name] }
    | .error e => { outcome := .ok (errorResult (PyExc.message e)), invoked := [function_name] }
  else
    { outcome := .error (.valueError ("Function " ++ function_name ++ " is not defined in the mapping.")),
      invoked := [] }

/-- C5: dispatching a tool name that is not in `FUNCTION_MAP` raises
`ValueError` (with the source's message) for every argument mapping and every
behaviour of the registry functions, and invokes no query function. -/
theorem unknown_tool_raises_value_error
    (impl : String → ArgDict → Except PyExc PyVal)
    (function_name : String) (arguments : ArgDict)
    (h : function_name ∉ functionMapNames) :
    (call_function_by_name impl function_name arguments).outcome =
      .error (.valueError ("Function " ++ function_name ++ " is not defined in the mapping.")) ∧
    (call_function_by_name impl function_name arguments).invoked = [] := by
  simp [call_function_by_name, h]

/-- C5 witness: `"non_existent_function"` is not registered, and dispatching it
raises the `ValueError` without invoking anything. -/
theorem unknown_tool_raises_value_error_case :
    (call_function_by_name (fun _ _ => .ok (.str "")) "non_existent_function" []).outcome =
      .error (.valueError ("Function " ++ "non_existent_function" ++ " is not defined in the mapping.")) ∧
    (call_function_by_name (fun _ _ => .ok (.str "")) "non_existent_function" []).invoked = [] :=
  unknown_tool_raises_value_error (fun _ _ => .ok (.str "")) "non_existent_function" []
    (by decide)

/-- C6: for a registered tool name, if the invoked query function raises an
exception, dispatch returns normally with the dict `{"error": str(e)}` — the
exception is not propagated. -/
theorem failing_tool_returns_error_dict
    (impl : String → ArgDict → Except PyExc PyVal)
    (function_name : String) (arguments : ArgDict) (e : PyExc)
    (hmem : function_name ∈ functionMapNames)
    (hfail : impl function_name arguments = .error e) :
    (call_function_by_name impl function_name arguments).outcome =
      .ok (.dict [("error", .str (PyExc.message e))]) := by
  simp [call_function_by_name, hmem, hfail, errorResult]

/-- C6 witness: a registered tool whose call raises `Exception("boom")`
dispatches to `{"error": "boom"}`. -/
theorem failing_tool_returns_error_dict_case :
    (call_function_by_name (fun _ _ => .error (.exception "boom"))
        "get_current_balance" []).outcome =
      .ok (.dict [("error", .str (PyExc.message (.exception "boom")))]) :=
  failing_tool_returns_error_dict (fun _ _ => .error (.exception "boom"))
    "get_current_balance" [] (.exception "boom") (by decide) rfl

/-- C10: for a registered tool name, dispatch never raises, whatever the
argument mapping and whatever the invocation does (the `try` wraps the
invocation itself, so even failures of argument binding are swallowed): the
outcome is always a returned value. -/
theorem registered_dispatch_never_raises
    (impl : String → ArgDict → Except PyExc PyVal)
    (function_name : String) (arguments : ArgDict)
    (hmem : function_name ∈ functionMapNames) :
    ∃ v, (call_function_by_name impl function_name arguments).outcome = .ok v := by
  unfold call_function_by_name
  rw [if_pos hmem]
  cases impl function_name arguments with
  | ok result => exact ⟨result, rfl⟩
  | error e => exact ⟨errorResult (PyExc.message e), rfl⟩

/-- C10 witness: a registered tool invoked with an empty argument mapping (a
call that fails to bind in Python) still yields a returned value. -/
theorem registered_dispatch_never_raises_case :
    ∃ v, (call_function_by_name (fun _ _ => .error (.exception
        "get_current_balance() missing 1 required positional argument: 'account_id'"))
        "get_current_balance" []).outcome = .ok v :=
  registered_dispatch_never_raises _ "get_current_balance" [] (by decide)

/-- A Python annotation the registry functions use (`str`, `float`, `int`). -/
inductive PyAnnot where
  | pstr
  | pfloat
  | pint
deriving DecidableEq

/-- One parameter of a function signature as `inspect.signature` reports it:
its name, its annotation (`none` = `inspect.Parameter.empty`), and its default
(`none` = no default). -/
structure Param where
  name : String
  annot : Option PyAnnot
  default : Option JsonVal
deriving DecidableEq

/-- `param.annotation if param.annotation is not inspect.Parameter.empty else
str` (src/app/functions/function_caller.py lines 62-64). -/
def annotOrStr (a : Option PyAnnot) : PyAnnot :=
  a.getD .pstr

/-- The JSON-Schema type pydantic reports for a field of the given Python
annotation. -/
def jsonTypeOf : PyAnnot → String
  | .pstr => "string"
  | .pfloat => "number"
  | .pint => "integer"

/-- The `required` list `generate_function_schema` builds
(src/app/functions/function_caller.py lines 66-69): the loop appends the name
of every parameter other than `self` that has no default value, in signature
order. -/
def requiredNames : List Param → List String
  | [] => []
  | p :: ps =>
    if p.name = "self" then requiredNames ps
    else if (Param.default p).isNone then p.name :: requiredNames ps
    else requiredNames ps

/-- The `properties` object of the schema pydantic generates from the `fields`
the loop collects (src/app/functions/function_caller.py lines 73-83): one
property per parameter other than `self`, typed by its annotation, defaulting
to `str` when unannotated. -/
def schemaProperties : List Param → List (String × String)
  | [] => []
  | p :: ps =>
    if p.name = "self" then schemaProperties ps
    else (p.name, jsonTypeOf (annotOrStr (Param.annot p))) :: schemaProperties ps

/-- The object schema `generate_function_schema` returns
(src/app/functions/function_caller.py lines 81-85). -/
structure Schema where
  type : String
  properties : List (String × String)
  required : List String

/-- Models `generate_function_schema` (src/app/functions/function_caller.py
lines 46-85) as a function of the reflected parameter list. -/
def generate_function_schema (params : List Param) : Schema :=
  { type := "object",
    properties := schemaProperties params,
    required := requiredNames params }

theorem requiredNames_eq_filter (params : List Param) :
    requiredNames params =
      (params.filter
        (fun p => !(Param.name p == "self") && (Param.default p).isNone)).map Param.name := by
  induction params with
  | nil => rfl
  | cons p ps ih =>
    by_cases hs : p.name = "self"
    · simp [requiredNames, List.filter_cons, hs, ih]
    · by_cases hd : (Param.default p).isNone
      · simp [requiredNames, List.filter_cons, hs, hd, ih]
      · simp [requiredNames, List.filter_cons, hs, hd, ih]

theorem mem_requiredNames (n : String) (params : List Param) :
    n ∈ requiredNames params ↔
      ∃ p ∈ params, Param.name p = n ∧ Param.name p ≠ "self" ∧ (Param.default p).isNone := by
  rw [requiredNames_eq_filter]
  simp only [List.mem_map, List.mem_filter, Bool.and_eq_true, Bool.not_eq_true',
    beq_eq_false_iff_ne]
  constructor
  · rintro ⟨p, ⟨hp, hne, hd⟩, rfl⟩
    exact ⟨p, hp, rfl, hne, hd⟩
  · rintro ⟨p, hp, rfl, hne, hd⟩
    exact ⟨p, ⟨hp, hne, hd⟩, rfl⟩

theorem mem_schemaProperties_of_mem (p : Param) (params : List Param)
    (hp : p ∈ params) (hs : Param.name p ≠ "self") :
    (Param.name p, jsonTypeOf (annotOrStr (Param.annot p))) ∈ schemaProperties params := by
  induction params with
  | nil => cases hp
  | cons q qs ih =>
    rcases List.mem_cons.mp hp with rfl | hp
    · simp [schemaProperties, hs]
    · by_cases hq : q.name = "self" <;> simp [schemaProperties, hq, ih hp]

/-- C7: for every reflected function signature with distinct parameter names
(as any Python signature has), the object schema generated by
`generate_function_schema` lists a parameter's name in `required` iff that
parameter has no default value (and is not `self`); every parameter other than
`self` appears as a property typed by its annotation; and a parameter with no
type annotation is typed `"string"`. -/
theorem schema_required_iff_no_default (params : List Param)
    (hnd : (params.map Param.name).Nodup) :
    (∀ p ∈ params, Param.name p ≠ "self" →
      (Param.name p ∈ (generate_function_schema params).required ↔
        (Param.default p).isNone)) ∧
    (∀ n ∈ (generate_function_schema params).required,
      ∃ p ∈ params, Param.name p = n ∧ Param.name p ≠ "self" ∧ (Param.default p).isNone) ∧
    (∀ p ∈ params, Param.name p ≠ "self" →
      (Param.name p, jsonTypeOf (annotOrStr (Param.annot p))) ∈
        (generate_function_schema params).properties) ∧
    (∀ p ∈ params, Param.name p ≠ "self" → Param.annot p = none →
      (Param.name p, "string") ∈ (generate_function_schema params).properties) := by
  refine ⟨?_, ?_, ?_, ?_⟩
  · intro p hp hs
    constructor
    · intro hmem
      obtain ⟨q, hq, hqn, _, hqd⟩ := (mem_requiredNames _ _).mp hmem
      have : q = p := List.inj_on_of_nodup_map hnd hq hp hqn
      exact this ▸ hqd
    · intro hd
      exact (mem_requiredNames _ _).mpr ⟨p, hp, rfl, hs, hd⟩
  · intro n hn
    exact (mem_requiredNames _ _).mp hn
  · intro p hp hs
    exact mem_schemaProperties_of_mem p params hp hs
  · intro p hp hs ha
    have := mem_schemaProperties_of_mem p params hp hs
    rwa [ha] at this

/-- C7 witness: the test file's `sample_function(param1: str, param2: int = 10)`
— `param1` is required and typed `"string"`, `param2` is not required. -/
theorem schema_required_iff_no_default_case :
    ((([⟨"param1", some .pstr, none⟩, ⟨"param2", some .pint, some (.num 10)⟩] :
        List Param).map Param.name).Nodup) ∧
    (∀ p ∈ ([⟨"param1", some .pstr, none⟩, ⟨"param2", some .pint, some (.num 10)⟩] :
        List Param), Param.name p ≠ "self" →
      (Param.name p ∈ (generate_function_schema
          [⟨"param1", some .pstr, none⟩, ⟨"param2", some .pint, some (.num 10)⟩]).required ↔
        (Param.default p).isNone)) :=
  ⟨by decide,
   (schema_required_iff_no_default
      [⟨"param1", some .pstr, none⟩, ⟨"param2", some .pint, some (.num 10)⟩]
      (by decide)).1⟩

/-- A row of the `new_table` transactions table, restricted to the columns the
modelled aggregate queries read. Amounts are exact integers (the column is an
exact SQL numeric type; a fixed decimal scale embeds into the integers). -/
structure Txn where
  account_id : String
  amount : Int
  currency : String
  category : String
  transaction_type : String
  bank_name : String
deriving DecidableEq

/-- Case-fold a string (PostgreSQL `ILIKE` comparisons are case-insensitive). -/
def lowerStr (s : String) : String :=
  String.mk (s.data.map Char.toLower)

/-- Does `pat` occur as a contiguous substring of the haystack? -/
def infixMatch (pat : List Char) : List Char → Bool
  | [] => pat.isEmpty
  | c :: cs => pat.isPrefixOf (c :: cs) || infixMatch pat cs

/-- `col ILIKE '%word%'`: case-insensitive substring containment. -/
def ilikeContains (s word : String) : Bool :=
  infixMatch (lowerStr word).data (lowerStr s).data

/-- `col ILIKE 'pat'` for a wildcard-free pattern (the shape the repository's
tests exercise): case-insensitive equality. -/
def ilikeEquals (s pat : String) : Bool :=
  lowerStr s == lowerStr pat

/-- `transaction_type ILIKE '%credit%'`. -/
def matchesCredit (t : Txn) : Bool :=
  ilikeContains (Txn.transaction_type t) "credit"

/-- `transaction_type ILIKE '%debit%'`. -/
def matchesDebit (t : Txn) : Bool :=
  ilikeContains (Txn.transaction_type t) "debit"

/-- `SUM(expr)` over the rows of a group; the empty sum is 0 (the value
`COALESCE(SUM(...), 0)` yields — a bare `SUM` over an empty aggregate is NULL,
which only arises below where a group is nonempty or a COALESCE applies). -/
def sqlSum (f : Txn → Int) : List Txn → Int
  | [] => 0
  | t :: ts => f t + sqlSum f ts

/-- `GROUP BY` keys: the distinct key values, in first-appearance order (the
order among groups only matters through `ORDER BY ... DESC`, whose tie-break
the spec leaves open). -/
def groupKeys {α : Type} [DecidableEq α] : List α → List α
  | [] => []
  | k :: ks => k :: (groupKeys ks).filter (fun x => x != k)

/-- Descending insertion by an integer key: models `ORDER BY key DESC` (stable;
ties keep earlier rows first, a permitted reading of the unspecified
tie-break). -/
def insertByDesc {α : Type} (key : α → Int) (a : α) : List α → List α
  | [] => [a]
  | b :: bs => if key b ≤ key a then a :: b :: bs else b :: insertByDesc key a bs

/-- `ORDER BY key DESC` over a list of group rows. -/
def sortByDesc {α : Type} (key : α → Int) : List α → List α
  | [] => []
  | a :: rest => insertByDesc key a (sortByDesc key rest)

theorem mem_of_mem_insertByDesc {α : Type} (key : α → Int) (a x : α) (l : List α)
    (h : x ∈ insertByDesc key a l) : x = a ∨ x ∈ l := by
  induction l with
  | nil =>
    simp only [insertByDesc] at h
    exact Or.inl (List.mem_singleton.mp h)
  | cons b bs ih =>
    simp only [insertByDesc] at h
    by_cases hb : key b ≤ key a
    · rw [if_pos hb] at h
      rcases List.mem_cons.mp h with rfl | h2
      · exact Or.inl rfl
      · exact Or.inr h2
    · rw [if_neg hb] at h
      rcases List.mem_cons.mp h with rfl | h2
      · exact Or.inr (List.mem_cons_self _ _)
      · rcases ih h2 with rfl | h3
        · exact Or.inl rfl
        · exact Or.inr (List.mem_cons_of_mem _ h3)

theorem mem_of_mem_sortByDesc {α : Type} (key : α → Int) (x : α) (l : List α)
    (h : x ∈ sortByDesc key l) : x ∈ l := by
  induction l with
  | nil => simp [sortByDesc] at h
  | cons a rest ih =>
    simp only [sortByDesc] at h
    rcases mem_of_mem_insertByDesc key a x _ h with rfl | h2
    · exact List.mem_cons_self _ _
    · exact List.mem_cons_of_mem _ (ih h2)

/-- One output row of the SQL built by `get_transactions_by_category`
(src/app/database/sql_queries.py lines 365-377): per currency group, the
credit-case sum, the debit-case sum, the total sum, and `MAX(currency)` — which
over a group keyed by `currency` is the group key itself. -/
structure CategoryRow where
  credit_amount : Int
  debit_amount : Int
  total_amount : Int
  currency : String
deriving DecidableEq

/-- The row of the `currency = c` group. -/
def categoryRowFor (ts : List Txn) (c : String) : CategoryRow :=
  let g := ts.filter (fun t => Txn.currency t == c)
  { credit_amount := sqlSum (fun t => if matchesCredit t then Txn.amount t else 0) g,
    debit_amount := sqlSum (fun t => if matchesDebit t then Txn.amount t else 0) g,
    total_amount := sqlSum Txn.amount g,
    currency := c }

/-- The WHERE clause of `get_transactions_by_category`:
`category ILIKE '<category>' AND account_id = '<account_id>'`. -/
def byCategoryPred (category account_id : String) (t : Txn) : Bool :=
  ilikeEquals (Txn.category t) category && (Txn.account_id t == account_id)

/-- The PostgreSQL semantics of the query text built by
`get_transactions_by_category`: filter by category and account, group by
currency, aggregate, `ORDER BY total_amount DESC`, `LIMIT 1`. When no row
matches, `GROUP BY` yields no groups, so the query returns no row. -/
def run_get_transactions_by_category (db : List Txn) (category account_id : String) :
    List CategoryRow :=
  let filtered := db.filter (byCategoryPred category account_id)
  (sortByDesc CategoryRow.total_amount
    ((groupKeys (filtered.map Txn.currency)).map (categoryRowFor filtered))).take 1

/-- The WHERE clause of `get_deposits`:
`transaction_type ILIKE '%credit%' AND account_id = '<account_id>'`. -/
def depositsPred (account_id : String) (t : Txn) : Bool :=
  matchesCredit t && (Txn.account_id t == account_id)

/-- A row of the `deposit_totals` CTE of `get_deposits`
(src/app/database/sql_queries.py lines 291-302): one (category, currency)
group and its `SUM(amount)`. -/
structure DepositGroup where
  category : String
  category_total : Int
  currency : String
deriving DecidableEq

/-- The `deposit_totals` row of the `(category, currency) = k` group. -/
def depositGroupFor (ts : List Txn) (k : String × String) : DepositGroup :=
  let g := ts.filter (fun t => (Txn.category t == k.1) && (Txn.currency t == k.2))
  { category := k.1, category_total := sqlSum Txn.amount g, currency := k.2 }

/-- The single output row of `get_deposits` (src/app/database/sql_queries.py
lines 303-311): an aggregate without GROUP BY always yields exactly one row;
`COALESCE(SUM(amount), 0)` zero-defaults the total, while the scalar
subqueries over the possibly-empty `deposit_totals` CTE are NULL (`none`) when
that CTE has no row. -/
structure DepositsRow where
  total_deposits : Int
  total_deposits_currency : Option String
  highest_deposit_category : Option String
  highest_category_amount : Option Int
  highest_category_currency : Option String
deriving DecidableEq

/-- The PostgreSQL semantics of the query text built by `get_deposits`. -/
def run_get_deposits (db : List Txn) (account_id : String) : List DepositsRow :=
  let filtered := db.filter (depositsPred account_id)
  let top := (sortByDesc DepositGroup.category_total
    ((groupKeys (filtered.map (fun t => (Txn.category t, Txn.currency t)))).map
      (depositGroupFor filtered))).head?
  [ { total_deposits := sqlSum Txn.amount filtered,
      total_deposits_currency := top.map DepositGroup.currency,
      highest_deposit_category := top.map DepositGroup.category,
      highest_category_amount := top.map DepositGroup.category_total,
      highest_category_currency := top.map DepositGroup.currency } ]

/-- C8 counterexample: for a database holding only another account's rows, the
filtered set of account `"A"` for category `"transfer"` is empty, and the query
built by `get_transactions_by_category` returns NO row at all (its final
SELECT is driven by `GROUP BY currency` with no groups and no COALESCE) — not
a row whose numeric aggregate fields are zero. -/
theorem by_category_returns_no_row_on_empty_account :
    ([⟨"B", 5, "NGN", "transfer", "credit", "GTBank"⟩] : List Txn).filter
        (byCategoryPred "transfer" "A") = [] ∧
    run_get_transactions_by_category
        [⟨"B", 5, "NGN", "transfer", "credit", "GTBank"⟩] "transfer" "A" = [] := by
  constructor
  · decide
  · decide

/-- C8 (amended): zero-defaulting holds only for the aggregate queries whose
outermost SELECT aggregates the table directly with COALESCE and no GROUP BY —
`get_deposits` returns, for an account with an empty filtered set, exactly one
row with `total_deposits = 0` and NULL subquery fields; whereas
`get_transactions_by_category`, whose final SELECT is driven by `GROUP BY
currency` without COALESCE, returns no row at all on an empty filtered set. -/
theorem empty_account_aggregate_rows (db : List Txn) (category account_id : String)
    (hcat : db.filter (byCategoryPred category account_id) = [])
    (hdep : db.filter (depositsPred account_id) = []) :
    run_get_transactions_by_category db category account_id = [] ∧
    run_get_deposits db account_id =
      [{ total_deposits := 0, total_deposits_currency := none,
         highest_deposit_category := none, highest_category_amount := none,
         highest_category_currency := none }] := by
  constructor
  · simp [run_get_transactions_by_category, hcat, groupKeys, sortByDesc]
  · simp [run_get_deposits, hdep, groupKeys, sortByDesc, sqlSum]

/-- C8 witness: the counterexample database instantiates both hypotheses —
account `"A"` has no matching rows, `get_transactions_by_category` returns no
row, `get_deposits` returns the single zero-defaulted row. -/
theorem empty_account_aggregate_rows_case :
    (([⟨"B", 5, "NGN", "transfer", "credit", "GTBank"⟩] : List Txn).filter
        (byCategoryPred "transfer" "A") = [] ∧
     ([⟨"B", 5, "NGN", "transfer", "credit", "GTBank"⟩] : List Txn).filter
        (depositsPred "A") = []) ∧
    (run_get_transactions_by_category
        [⟨"B", 5, "NGN", "transfer", "credit", "GTBank"⟩] "transfer" "A" = [] ∧
     run_get_deposits [⟨"B", 5, "NGN", "transfer", "credit", "GTBank"⟩] "A" =
      [{ total_deposits := 0, total_deposits_currency := none,
         highest_deposit_category := none, highest_category_amount := none,
         highest_category_currency := none }]) :=
  ⟨⟨by decide, by decide⟩,
   empty_account_aggregate_rows _ "transfer" "A" (by decide) (by decide)⟩

theorem sqlSum_split (ts : List Txn)
    (h : ∀ t ∈ ts, matchesCredit t ≠ matchesDebit t) :
    sqlSum Txn.amount ts =
      sqlSum (fun t => if matchesCredit t then Txn.amount t else 0) ts +
        sqlSum (fun t => if matchesDebit t then Txn.amount t else 0) ts := by
  induction ts with
  | nil => simp [sqlSum]
  | cons t ts ih =>
    have ht := h t (List.mem_cons_self t ts)
    have hrest := ih (fun u hu => h u (List.mem_cons_of_mem t hu))
    cases hc : matchesCredit t with
    | false =>
      have hd : matchesDebit t = true := by
        cases hdb : matchesDebit t
        · exact absurd (hc.trans hdb.symm) ht
        · rfl
      simp only [sqlSum, hc, hd, if_pos, if_neg, Bool.false_eq_true, ite_false, ite_true]
      rw [hrest]
      ring
    | true =>
      have hd : matchesDebit t = false := by
        cases hdb : matchesDebit t
        · rfl
        · exact absurd (hc.trans hdb.symm) ht
      simp only [sqlSum, hc, hd, Bool.false_eq_true, ite_false, ite_true]
      rw [hrest]
      ring

/-- C9 counterexample: account `"A"` with one `"transfer"`-category row whose
`transaction_type` is `"transfer"` — it matches neither `'%credit%'` nor
`'%debit%'`, so the returned row has `total_amount = 5` but
`credit_amount = debit_amount = 0`: a gap of 5 whole units, far beyond the
0.01 tolerance. -/
theorem category_total_misses_untyped_rows :
    ∃ r ∈ run_get_transactions_by_category
        [⟨"A", 5, "NGN", "transfer", "transfer", "GTBank"⟩] "transfer" "A",
      CategoryRow.total_amount r ≠
          CategoryRow.credit_amount r + CategoryRow.debit_amount r ∧
        CategoryRow.total_amount r -
            (CategoryRow.credit_amount r + CategoryRow.debit_amount r) = 5 := by
  decide

/-- C9 (amended): provided every row matching the category/account filter has a
`transaction_type` matching exactly one of `'%credit%'` and `'%debit%'`, every
row returned by the query of `get_transactions_by_category` satisfies
`total_amount = credit_amount + debit_amount` exactly — in particular within
the 0.01 tolerance. -/
theorem category_total_splits_into_credit_and_debit (db : List Txn)
    (category account_id : String)
    (h : ∀ t ∈ db.filter (byCategoryPred category account_id),
      matchesCredit t ≠ matchesDebit t) :
    ∀ r ∈ run_get_transactions_by_category db category account_id,
      CategoryRow.total_amount r =
        CategoryRow.credit_amount r + CategoryRow.debit_amount r := by
  intro r hr
  simp only [run_get_transactions_by_category] at hr
  have hr1 := List.take_subset 1 _ hr
  have hr2 := mem_of_mem_sortByDesc CategoryRow.total_amount r _ hr1
  obtain ⟨c, _, rfl⟩ := List.mem_map.mp hr2
  simp only [categoryRowFor]
  exact sqlSum_split _ (fun t htg => h t (List.mem_of_mem_filter htg))

/-- C9 witness: a database whose matching rows are all credit-typed satisfies
the hypothesis, and the returned row splits exactly. -/
theorem category_total_splits_case :
    (∀ t ∈ ([⟨"A", 3, "NGN", "transfer", "credit", "GTBank"⟩] : List Txn).filter
        (byCategoryPred "transfer" "A"), matchesCredit t ≠ matchesDebit t) ∧
    (∀ r ∈ run_get_transactions_by_category
        [⟨"A", 3, "NGN", "transfer", "credit", "GTBank"⟩] "transfer" "A",
      CategoryRow.total_amount r =
        CategoryRow.credit_amount r + CategoryRow.debit_amount r) :=
  ⟨by decide,
   category_total_splits_into_credit_and_debit _ "transfer" "A" (by decide)⟩
